import Mathlib

/-!
Shallow embedding of the Phoenix Workout API backend (`src/backend/main.py`):
the workout data model, the seeded exercise catalog, plan generation,
completion logging, the hybrid-exercise query and the header-based identity
check, together with theorems settling the specification's claims.

Conventions of the embedding:

* Python `datetime` values are whole-second POSIX timestamps (`Int`).
  `timedelta.seconds` is the seconds *component* of the normalized timedelta,
  not the total: for a difference of `d` seconds it is `d % 86400` (Python's
  `%`, like Lean's `Int.emod` behind `%`, lands in `[0, 86400)`), and the
  source's `// 60` on that non-negative value is `/ 60` here.
* Python floats (`target_weight_kg`, `actual_weight_kg`) carry only literal
  values that no claim computes with; they are embedded as `ℚ`.
* The nondeterministic inputs of `generate_workout_plan` — the `uuid4().hex`
  string and `datetime.utcnow()` — are explicit parameters `uuid4_hex` and
  `now`.
* Python's `str.upper` is `py_upper` (by-character ASCII uppercase; the
  catalog's `exercise_type` values are all ASCII).
* FastAPI's `HTTPException` is the error side of an `Except HTTPError`;
  Python truthiness on an `Optional[str]` makes both `None` and `""` falsy.
-/

namespace Phoenix

/-- `ExerciseType.VITRUVIAN` — the source's `ExerciseType` is a
class-as-namespace holding string constants; each constant is one `def`. -/
def ExerciseType.VITRUVIAN : String := "VITRUVIAN"

/-- `ExerciseType.DUMBBELL` string constant of the source. -/
def ExerciseType.DUMBBELL : String := "DUMBBELL"

/-- `ExerciseType.BARBELL` string constant of the source. -/
def ExerciseType.BARBELL : String := "BARBELL"

/-- `ExerciseType.BODYWEIGHT` string constant of the source. -/
def ExerciseType.BODYWEIGHT : String := "BODYWEIGHT"

/-- `ExerciseType.TRX` string constant of the source. -/
def ExerciseType.TRX : String := "TRX"

/-- `ExerciseType.MACHINE` string constant of the source. -/
def ExerciseType.MACHINE : String := "MACHINE"

/-- `ExerciseType.REST_TIMER` string constant of the source. -/
def ExerciseType.REST_TIMER : String := "REST_TIMER"

/-- `PlannedSet` pydantic model: one prescribed set. -/
structure PlannedSet where
  set_number : Nat
  set_type : String := "STANDARD"
  target_reps : Option Nat := none
  target_weight_kg : Option ℚ := none
  target_rpe : Option Nat := none
  rest_seconds : Nat := 60
deriving Repr, DecidableEq

/-- `PlannedExercise` pydantic model: one slot of a plan. -/
structure PlannedExercise where
  order_index : Nat
  exercise_id : String
  exercise_name : String
  exercise_type : String := ExerciseType.VITRUVIAN
  muscle_group : String
  sets : List PlannedSet
  rest_seconds : Nat := 60
  coaching_note : Option String := none
  cable_config : Option String := some "DOUBLE"
  is_travel_substitute : Bool := false
deriving Repr, DecidableEq

/-- `WorkoutPlan` pydantic model: the aggregate returned per plan request. -/
structure WorkoutPlan where
  plan_id : String
  user_id : String
  generated_at : Int
  workout_name : String
  estimated_duration_minutes : Nat
  exercises : List PlannedExercise
  ai_notes : Option String := none
deriving Repr, DecidableEq

/-- `CompletedSetLog` pydantic model: actual performance of one set. -/
structure CompletedSetLog where
  exercise_id : String
  set_number : Nat
  actual_reps : Nat
  actual_weight_kg : ℚ
  logged_rpe : Option Nat := none
  is_pr : Bool := false
deriving Repr, DecidableEq

/-- `WorkoutCompletionLog` pydantic model: what the client submits. -/
structure WorkoutCompletionLog where
  plan_id : Option String := none
  user_id : String
  started_at : Int
  completed_at : Int
  sets : List CompletedSetLog
  notes : Option String := none
deriving Repr, DecidableEq

/-- `ExerciseDefinition` pydantic model: one static catalog entry. -/
structure ExerciseDefinition where
  id : String
  name : String
  exercise_type : String
  muscle_group : String
  equipment : String
  description : Option String := none
  coaching_note : Option String := none
  default_cable_config : Option String := none
deriving Repr, DecidableEq

/-- The JSON object `log_workout_completion` returns (the spec's
`CompletionSummary`): its keys become fields. -/
structure CompletionSummary where
  status : String
  user_id : String
  plan_id : Option String
  sets_logged : Nat
  duration_minutes : Int
  new_prs : Nat
  message : String
deriving Repr, DecidableEq

/-- `HYBRID_EXERCISE_LIBRARY`: the seed catalog, in the source's order
(dumbbell, bodyweight, TRX, rest-timer entries). -/
def HYBRID_EXERCISE_LIBRARY : List ExerciseDefinition := [
  { id := "db-chest-press", name := "Dumbbell Chest Press",
    exercise_type := ExerciseType.DUMBBELL, muscle_group := "CHEST", equipment := "DUMBBELL",
    coaching_note := some "Neutral spine, scapulae retracted. Lower until elbows at 90°." },
  { id := "db-row", name := "Dumbbell Row",
    exercise_type := ExerciseType.DUMBBELL, muscle_group := "BACK", equipment := "DUMBBELL",
    coaching_note := some "Brace core. Drive elbow to hip, not shoulder." },
  { id := "db-shoulder-press", name := "Dumbbell Shoulder Press",
    exercise_type := ExerciseType.DUMBBELL, muscle_group := "SHOULDERS", equipment := "DUMBBELL",
    coaching_note := some "Do not hyperextend lumbar. Press vertical, not forward." },
  { id := "db-rdl", name := "Romanian Deadlift (DB)",
    exercise_type := ExerciseType.DUMBBELL, muscle_group := "HAMSTRINGS", equipment := "DUMBBELL",
    coaching_note := some "Hip hinge, not squat. Maintain neutral spine throughout." },
  { id := "db-lateral-raise", name := "Lateral Raise",
    exercise_type := ExerciseType.DUMBBELL, muscle_group := "SHOULDERS", equipment := "DUMBBELL",
    coaching_note := some "Lead with elbows, not wrists. Stop at shoulder height." },
  { id := "db-bicep-curl", name := "Dumbbell Bicep Curl",
    exercise_type := ExerciseType.DUMBBELL, muscle_group := "BICEPS", equipment := "DUMBBELL",
    coaching_note := some "Supinate at the top. Control the eccentric." },
  { id := "db-tricep-kickback", name := "Tricep Kickback",
    exercise_type := ExerciseType.DUMBBELL, muscle_group := "TRICEPS", equipment := "DUMBBELL",
    coaching_note := some "Upper arm parallel to floor. Full extension at top." },
  { id := "db-goblet-squat", name := "Goblet Squat",
    exercise_type := ExerciseType.DUMBBELL, muscle_group := "QUADS", equipment := "DUMBBELL",
    coaching_note := some "Elbows inside knees at bottom. Drive through heels." },
  { id := "bw-pushup", name := "Push-Up",
    exercise_type := ExerciseType.BODYWEIGHT, muscle_group := "CHEST", equipment := "BODYWEIGHT",
    coaching_note := some "Rigid plank from head to heel. Elbows 45° from torso." },
  { id := "bw-pullup", name := "Pull-Up",
    exercise_type := ExerciseType.BODYWEIGHT, muscle_group := "BACK", equipment := "BODYWEIGHT",
    coaching_note := some "Dead hang start. Drive elbows down to lats, not shoulders." },
  { id := "bw-dip", name := "Dip",
    exercise_type := ExerciseType.BODYWEIGHT, muscle_group := "TRICEPS", equipment := "BODYWEIGHT",
    coaching_note := some "Slight forward lean for chest emphasis. Don\x27t flare elbows." },
  { id := "bw-plank", name := "Plank",
    exercise_type := ExerciseType.BODYWEIGHT, muscle_group := "CORE", equipment := "BODYWEIGHT",
    coaching_note := some "Neutral spine. Squeeze glutes and abs. Don\x27t hold breath." },
  { id := "bw-squat", name := "Bodyweight Squat",
    exercise_type := ExerciseType.BODYWEIGHT, muscle_group := "QUADS", equipment := "BODYWEIGHT",
    coaching_note := some "Feet shoulder-width. Knees track toes. Full depth if mobility allows." },
  { id := "bw-lunge", name := "Reverse Lunge",
    exercise_type := ExerciseType.BODYWEIGHT, muscle_group := "QUADS", equipment := "BODYWEIGHT",
    coaching_note := some "Step back, not forward. Rear knee hovers 1\" above floor." },
  { id := "bw-glute-bridge", name := "Glute Bridge",
    exercise_type := ExerciseType.BODYWEIGHT, muscle_group := "GLUTES", equipment := "BODYWEIGHT",
    coaching_note := some "Drive through heels. Full hip extension at top. Pause 1 second." },
  { id := "trx-row", name := "TRX Row",
    exercise_type := ExerciseType.TRX, muscle_group := "BACK", equipment := "TRX",
    coaching_note := some "Body angle controls difficulty. Retract scapulae before pulling." },
  { id := "trx-chest-press", name := "TRX Chest Press",
    exercise_type := ExerciseType.TRX, muscle_group := "CHEST", equipment := "TRX",
    coaching_note := some "Lean forward for more load. Keep rigid plank throughout." },
  { id := "trx-bicep-curl", name := "TRX Bicep Curl",
    exercise_type := ExerciseType.TRX, muscle_group := "BICEPS", equipment := "TRX",
    coaching_note := some "Elbows fixed, walk feet forward for more load." },
  { id := "trx-squat", name := "TRX Squat",
    exercise_type := ExerciseType.TRX, muscle_group := "QUADS", equipment := "TRX",
    coaching_note := some "Hold handles for counterbalance. Allows deeper squat." },
  { id := "trx-plank", name := "TRX Plank",
    exercise_type := ExerciseType.TRX, muscle_group := "CORE", equipment := "TRX",
    coaching_note := some "Feet in straps. Harder than floor plank — high core demand." },
  { id := "rest-60", name := "Rest (60 sec)",
    exercise_type := ExerciseType.REST_TIMER, muscle_group := "RECOVERY", equipment := "NONE",
    coaching_note := some "Active recovery. Breathe. Shake out the pump." },
  { id := "rest-90", name := "Rest (90 sec)",
    exercise_type := ExerciseType.REST_TIMER, muscle_group := "RECOVERY", equipment := "NONE",
    coaching_note := some "Longer recovery for heavy compound sets." },
  { id := "rest-120", name := "Rest (2 min)",
    exercise_type := ExerciseType.REST_TIMER, muscle_group := "RECOVERY", equipment := "NONE",
    coaching_note := some "Full recovery. Used after max-effort sets." }]

/-- FastAPI's `HTTPException`: a status code and a detail string. -/
structure HTTPError where
  status_code : Nat
  detail : String
deriving Repr, DecidableEq

/-- `get_user_id`: MVP auth from the `X-User-Id` header. The source's
`if not x_user_id` is Python truthiness on an `Optional[str]`, so a missing
header and an empty header value are both rejected with status 401. -/
def get_user_id (x_user_id : Option String) : Except HTTPError String :=
  match x_user_id with
  | none => Except.error { status_code := 401, detail := "X-User-Id header required" }
  | some s =>
      if s = "" then Except.error { status_code := 401, detail := "X-User-Id header required" }
      else Except.ok s

/-- `generate_workout_plan`: the MVP template upper-push day. The source's
`uuid4().hex` and `datetime.utcnow()` are passed in as `uuid4_hex` and `now`;
`user_history` (`list = None` in the source, unused; the spec types its
entries as past completion summaries) is an explicit argument. -/
def generate_workout_plan (user_id : String)
    (user_history : Option (List CompletionSummary))
    (uuid4_hex : String) (now : Int) : WorkoutPlan :=
  let plan_id := "plan_" ++ uuid4_hex.take 8
  let exercises : List PlannedExercise := [
    { order_index := 0,
      exercise_id := "cable-chest-press",
      exercise_name := "Cable Chest Press",
      exercise_type := ExerciseType.VITRUVIAN,
      muscle_group := "CHEST",
      cable_config := some "DOUBLE",
      coaching_note := some "Set cable at chest height. Drive elbows together at lockout.",
      sets := [
        { set_number := 1, set_type := "WARMUP", target_reps := some 15, target_weight_kg := some 10 },
        { set_number := 2, set_type := "STANDARD", target_reps := some 10, target_weight_kg := some 20 },
        { set_number := 3, set_type := "STANDARD", target_reps := some 10, target_weight_kg := some 20 },
        { set_number := 4, set_type := "STANDARD", target_reps := some 8, target_weight_kg := some 22.5 }] },
    { order_index := 1,
      exercise_id := "rest-90",
      exercise_name := "Rest",
      exercise_type := ExerciseType.REST_TIMER,
      muscle_group := "RECOVERY",
      sets := [{ set_number := 1, set_type := "REST", rest_seconds := 90 }],
      rest_seconds := 90 },
    { order_index := 2,
      exercise_id := "cable-shoulder-press",
      exercise_name := "Cable Shoulder Press",
      exercise_type := ExerciseType.VITRUVIAN,
      muscle_group := "SHOULDERS",
      cable_config := some "DOUBLE",
      coaching_note := some "Press vertical. Brace core to protect lumbar.",
      sets := [
        { set_number := 1, set_type := "STANDARD", target_reps := some 10, target_weight_kg := some 15 },
        { set_number := 2, set_type := "STANDARD", target_reps := some 10, target_weight_kg := some 15 },
        { set_number := 3, set_type := "STANDARD", target_reps := some 8, target_weight_kg := some 17.5 }] },
    { order_index := 3,
      exercise_id := "rest-60",
      exercise_name := "Rest",
      exercise_type := ExerciseType.REST_TIMER,
      muscle_group := "RECOVERY",
      sets := [{ set_number := 1, set_type := "REST", rest_seconds := 60 }],
      rest_seconds := 60 },
    { order_index := 4,
      exercise_id := "bw-pushup",
      exercise_name := "Push-Up",
      exercise_type := ExerciseType.BODYWEIGHT,
      muscle_group := "CHEST",
      coaching_note := some "Finisher — go to near failure. Control the negative.",
      sets := [
        { set_number := 1, set_type := "AMRAP", target_reps := none },
        { set_number := 2, set_type := "AMRAP", target_reps := none }] }]
  { plan_id := plan_id,
    user_id := user_id,
    generated_at := now,
    workout_name := "Upper Push — Day 1",
    estimated_duration_minutes := 35,
    exercises := exercises,
    ai_notes := some "Progressive overload target: +2.5kg on Cable Chest Press if all 4 sets completed at RPE <8." }

/-- `GET /workout/today`: resolve the caller from the header (the `Depends`
runs first; its `HTTPException` short-circuits the handler), then generate
the plan. The source calls `generate_workout_plan(user_id=user_id)`, leaving
`user_history` at its `None` default. -/
def get_todays_workout (x_user_id : Option String)
    (uuid4_hex : String) (now : Int) : Except HTTPError WorkoutPlan :=
  match get_user_id x_user_id with
  | Except.error e => Except.error e
  | Except.ok user_id => Except.ok (generate_workout_plan user_id none uuid4_hex now)

/-- `POST /workout/complete` (`log_workout_completion`). `duration_minutes`
embeds `(log.completed_at - log.started_at).seconds // 60`: the `.seconds`
component of the normalized timedelta is the difference mod 86400, and `%`
on `Int` (`Int.emod`) lands in `[0, 86400)` exactly as Python's `%` does;
there is no validation that `completed_at` is not before `started_at`. -/
def log_workout_completion (log : WorkoutCompletionLog) (user_id : String) :
    CompletionSummary :=
  let duration_minutes : Int := (log.completed_at - log.started_at) % 86400 / 60
  let total_sets := log.sets.length
  let prs := log.sets.filter (fun s => s.is_pr)
  { status := "logged",
    user_id := user_id,
    plan_id := log.plan_id,
    sets_logged := total_sets,
    duration_minutes := duration_minutes,
    new_prs := prs.length,
    message := "Great work. " ++ toString total_sets ++ " sets logged. " ++
      (if prs.isEmpty then "Keep pushing."
       else "🔥 " ++ toString prs.length ++ " new PRs!") }

/-- `GET /exercises` (`get_exercise_library`): the whole catalog. -/
def get_exercise_library : List ExerciseDefinition := HYBRID_EXERCISE_LIBRARY

/-- Python's `str.upper` on the ASCII strings the catalog uses: uppercase
every character. -/
def py_upper (s : String) : String := String.mk (s.data.map Char.toUpper)

/-- `GET /exercises/hybrid` (`get_hybrid_exercises`): drop `VITRUVIAN`
entries, then, when a filter value is given, keep entries whose type equals
the uppercased filter. The source's `if exercise_type:` is Python truthiness,
so an empty filter string behaves like no filter at all. -/
def get_hybrid_exercises (exercise_type : Option String) : List ExerciseDefinition :=
  let exercises := HYBRID_EXERCISE_LIBRARY.filter
    (fun e => decide (e.exercise_type ≠ ExerciseType.VITRUVIAN))
  match exercise_type with
  | none => exercises
  | some t =>
      if t = "" then exercises
      else exercises.filter (fun e => decide (e.exercise_type = py_upper t))

/-- Filtering by `p` leaves only elements satisfying any `q` that `p`
implies. -/
theorem filter_all_of_imp {α : Type} (p q : α → Bool) (l : List α)
    (hpq : ∀ x, p x = true → q x = true) : (l.filter p).all q = true := by
  induction l with
  | nil => rfl
  | cons x xs ih =>
    by_cases hx : p x = true
    · simp [List.filter_cons, hx, List.all_cons, hpq x hx, ih]
    · simp [List.filter_cons, hx, ih]

/-- Filtering preserves a property all elements already have. -/
theorem filter_all_of_all {α : Type} (p q : α → Bool) (l : List α)
    (h : l.all q = true) : (l.filter p).all q = true := by
  induction l with
  | nil => rfl
  | cons x xs ih =>
    rw [List.all_cons, Bool.and_eq_true] at h
    by_cases hx : p x = true
    · simp [List.filter_cons, hx, List.all_cons, h.1, ih h.2]
    · simp [List.filter_cons, hx, ih h.2]

/-- Two successive filters are one filter by the conjunction. -/
theorem filter_filter_eq {α : Type} (p q : α → Bool) (l : List α) :
    (l.filter p).filter q = l.filter (fun a => p a && q a) := by
  induction l with
  | nil => rfl
  | cons x xs ih =>
    by_cases hx : p x = true <;> by_cases hq : q x = true <;>
      simp [List.filter_cons, hx, hq, ih]

/-- A conjunctive filter is empty whenever one conjunct already filters
everything out. -/
theorem filter_nil_of_nil {α : Type} (p q : α → Bool) (l : List α)
    (h : l.filter q = []) : l.filter (fun a => p a && q a) = [] := by
  rw [List.filter_eq_nil_iff] at h ⊢
  intro a ha
  simp [h a ha]

/-- The base filter of `get_hybrid_exercises` only keeps non-`VITRUVIAN`
entries. -/
theorem all_ne_vitruvian (l : List ExerciseDefinition) :
    ((l.filter (fun e => decide (e.exercise_type ≠ ExerciseType.VITRUVIAN))).all
      (fun e => e.exercise_type != ExerciseType.VITRUVIAN)) = true :=
  filter_all_of_imp _ _ l fun x hx => bne_iff_ne.mpr (of_decide_eq_true hx)

/-- A completion log that spans one full day plus 42 minutes:
`started_at` is 2024-01-01T10:00:00Z, `completed_at` 2024-01-02T10:42:00Z. -/
def c1_overnight_log : WorkoutCompletionLog :=
  { plan_id := none, user_id := "user-1",
    started_at := 1704103200, completed_at := 1704192120,
    sets := [{ exercise_id := "cable-chest-press", set_number := 1,
               actual_reps := 10, actual_weight_kg := 20 }] }

/-- C1: the claim says `durationMinutes` is the floor of the elapsed time in
whole minutes for every span, one day or more included. The code uses
`timedelta.seconds`, the seconds component only: on a log spanning one day
and 42 minutes (elapsed 88920 seconds, floor 1482 minutes) it answers 42. -/
theorem c1_duration_drops_days :
    (log_workout_completion c1_overnight_log "user-1").duration_minutes = 42
    ∧ (c1_overnight_log.completed_at - c1_overnight_log.started_at) / 60 = 1482 := by
  refine ⟨by decide, by decide⟩

/-- A completion log whose `completed_at` (2024-01-01T10:00:00Z) is 42
minutes before its `started_at` (2024-01-01T10:42:00Z). -/
def c2_reversed_log : WorkoutCompletionLog :=
  { plan_id := none, user_id := "user-1",
    started_at := 1704105720, completed_at := 1704103200, sets := [] }

/-- C2 counterexample: a log completed before it started is not rejected:
the handler returns a normal summary with status `"logged"`, and Python's
normalized timedelta even makes the duration a positive 1398 minutes. -/
theorem c2_reversed_log_yields_summary :
    (log_workout_completion c2_reversed_log "user-1").status = "logged"
    ∧ (log_workout_completion c2_reversed_log "user-1").duration_minutes = 1398 := by
  refine ⟨by decide, by decide⟩

/-- C2 amended: for every log with `completed_at` before `started_at`, the
recorder performs no validation and returns a summary with status
`"logged"`, whose duration is the (mod one day) seconds component divided
by 60 — always in `[0, 1440)`, never negative. -/
theorem c2_reversed_log_not_rejected :
    ∀ (log : WorkoutCompletionLog) (uid : String),
      log.completed_at < log.started_at →
        (log_workout_completion log uid).status = "logged"
        ∧ (log_workout_completion log uid).duration_minutes
            = (log.completed_at - log.started_at) % 86400 / 60
        ∧ 0 ≤ (log_workout_completion log uid).duration_minutes
        ∧ (log_workout_completion log uid).duration_minutes < 1440 := by
  intro log uid _
  have hd : (log_workout_completion log uid).duration_minutes
      = (log.completed_at - log.started_at) % 86400 / 60 := rfl
  refine ⟨rfl, hd, ?_, ?_⟩ <;> rw [hd] <;> omega

/-- C2 witness: the amended statement at the concrete reversed log. -/
theorem c2_reversed_witness :
    (log_workout_completion c2_reversed_log "user-1").status = "logged"
    ∧ (log_workout_completion c2_reversed_log "user-1").duration_minutes
        = (c2_reversed_log.completed_at - c2_reversed_log.started_at) % 86400 / 60
    ∧ 0 ≤ (log_workout_completion c2_reversed_log "user-1").duration_minutes
    ∧ (log_workout_completion c2_reversed_log "user-1").duration_minutes < 1440 :=
  c2_reversed_log_not_rejected c2_reversed_log "user-1" (by decide)

/-- C3: the generated plan's exercise ids include `cable-chest-press` and
`cable-shoulder-press`, and neither is the `id` of any catalog entry — the
resolution invariant fails (the catalog, despite the source's "Vitruvian +
all alternatives" description, seeds no VITRUVIAN entry). -/
theorem c3_plan_ids_missing_from_catalog :
    ((generate_workout_plan "user-1" none "0123456789abcdef" 0).exercises.map
        (fun e => e.exercise_id))
      = ["cable-chest-press", "rest-90", "cable-shoulder-press", "rest-60", "bw-pushup"]
    ∧ ((HYBRID_EXERCISE_LIBRARY.map (fun e => e.id)).all
        (fun i => i != "cable-chest-press")) = true
    ∧ ((HYBRID_EXERCISE_LIBRARY.map (fun e => e.id)).all
        (fun i => i != "cable-shoulder-press")) = true := by
  refine ⟨by decide, by decide, by decide⟩

/-- C4: every call of `generate_workout_plan` — any user, any history, any
uuid token, any clock — yields the very same five-slot exercise sequence:
Vitruvian cable chest press, a 90-second rest, Vitruvian shoulder press, a
60-second rest, and a bodyweight push-up finisher whose two sets are AMRAP
with no target reps. -/
theorem c4_generate_fixed_five :
    ∀ (uid uid' : String) (hist hist' : Option (List CompletionSummary))
      (tok tok' : String) (now now' : Int),
      (generate_workout_plan uid hist tok now).exercises
          = (generate_workout_plan uid' hist' tok' now').exercises
      ∧ ((generate_workout_plan uid hist tok now).exercises.map
            (fun e => (e.exercise_id, e.exercise_type, e.muscle_group)))
          = [("cable-chest-press", "VITRUVIAN", "CHEST"),
             ("rest-90", "REST_TIMER", "RECOVERY"),
             ("cable-shoulder-press", "VITRUVIAN", "SHOULDERS"),
             ("rest-60", "REST_TIMER", "RECOVERY"),
             ("bw-pushup", "BODYWEIGHT", "CHEST")]
      ∧ ((generate_workout_plan uid hist tok now).exercises.map
            (fun e => e.sets.map (fun s => (s.set_type, s.target_reps, s.rest_seconds))))
          = [[("WARMUP", some 15, 60), ("STANDARD", some 10, 60),
              ("STANDARD", some 10, 60), ("STANDARD", some 8, 60)],
             [("REST", none, 90)],
             [("STANDARD", some 10, 60), ("STANDARD", some 10, 60),
              ("STANDARD", some 8, 60)],
             [("REST", none, 60)],
             [("AMRAP", none, 60), ("AMRAP", none, 60)]] := by
  intro uid uid' hist hist' tok tok' now now'
  exact ⟨rfl, rfl, rfl⟩

/-- Unfolding of `get_hybrid_exercises` at a present filter value. -/
theorem hybrid_some_eq (t : String) :
    get_hybrid_exercises (some t)
      = if t = "" then
          HYBRID_EXERCISE_LIBRARY.filter
            (fun e => decide (e.exercise_type ≠ ExerciseType.VITRUVIAN))
        else
          (HYBRID_EXERCISE_LIBRARY.filter
            (fun e => decide (e.exercise_type ≠ ExerciseType.VITRUVIAN))).filter
            (fun e => decide (e.exercise_type = py_upper t)) := rfl

/-- C5: for every filter value (and for none), `get_hybrid_exercises`
returns no `VITRUVIAN` entry; with no filter it returns exactly the catalog
entries whose type differs from `VITRUVIAN`, in catalog order (filtering
preserves insertion order). -/
theorem c5_hybrid_never_vitruvian :
    (∀ f : Option String,
        ((get_hybrid_exercises f).all
          (fun e => e.exercise_type != ExerciseType.VITRUVIAN)) = true)
    ∧ get_hybrid_exercises none
        = HYBRID_EXERCISE_LIBRARY.filter
            (fun e => decide (e.exercise_type ≠ ExerciseType.VITRUVIAN)) := by
  constructor
  · intro f
    cases f with
    | none => exact all_ne_vitruvian _
    | some t =>
      rw [hybrid_some_eq]
      by_cases ht : t = ""
      · rw [if_pos ht]
        exact all_ne_vitruvian _
      · rw [if_neg ht]
        exact filter_all_of_all _ _ _ (all_ne_vitruvian _)
  · rfl

/-- The spec's worked completion example: a 42-minute session
(2024-01-01T10:00:00Z to 10:42:00Z) of six sets, one a PR. -/
def c6_example_log : WorkoutCompletionLog :=
  { plan_id := some "plan_0a1b2c3d", user_id := "user-1",
    started_at := 1704103200, completed_at := 1704105720,
    sets := [
      { exercise_id := "cable-chest-press", set_number := 1,
        actual_reps := 15, actual_weight_kg := 10 },
      { exercise_id := "cable-chest-press", set_number := 2,
        actual_reps := 10, actual_weight_kg := 20 },
      { exercise_id := "cable-chest-press", set_number := 3,
        actual_reps := 10, actual_weight_kg := 20 },
      { exercise_id := "cable-chest-press", set_number := 4,
        actual_reps := 8, actual_weight_kg := 23, is_pr := true },
      { exercise_id := "bw-pushup", set_number := 1,
        actual_reps := 18, actual_weight_kg := 0 },
      { exercise_id := "bw-pushup", set_number := 2,
        actual_reps := 14, actual_weight_kg := 0 }] }

/-- C6: for every log completed no earlier than it started, the summary has
status `"logged"`, echoes the user and the (optional) plan id, counts the
sets and the PR-flagged sets; on the spec's worked example the duration is
42 minutes, six sets, one PR, and the templated message names both counts. -/
theorem c6_record_summary :
    (∀ (log : WorkoutCompletionLog) (uid : String),
        log.started_at ≤ log.completed_at →
          (log_workout_completion log uid).status = "logged"
          ∧ (log_workout_completion log uid).user_id = uid
          ∧ (log_workout_completion log uid).plan_id = log.plan_id
          ∧ (log_workout_completion log uid).sets_logged = log.sets.length
          ∧ (log_workout_completion log uid).new_prs
              = (log.sets.filter (fun s => s.is_pr)).length)
    ∧ (log_workout_completion c6_example_log "user-1").duration_minutes = 42
    ∧ (log_workout_completion c6_example_log "user-1").sets_logged = 6
    ∧ (log_workout_completion c6_example_log "user-1").new_prs = 1
    ∧ (log_workout_completion c6_example_log "user-1").message
        = "Great work. 6 sets logged. 🔥 1 new PRs!" :=
  ⟨fun _ _ _ => ⟨rfl, rfl, rfl, rfl, rfl⟩,
   by decide, by decide, by decide, by decide⟩

/-- C7 counterexample: the empty filter string matches no enumeration value,
so by the claim the result should be the empty restriction (no entry has
type `""`); the code instead treats `""` as no filter (Python truthiness)
and returns all 23 non-VITRUVIAN entries. -/
theorem c7_empty_filter_unrestricted :
    get_hybrid_exercises (some "")
        ≠ HYBRID_EXERCISE_LIBRARY.filter
            (fun e => decide (e.exercise_type ≠ ExerciseType.VITRUVIAN)
              && decide (e.exercise_type = py_upper ""))
    ∧ (get_hybrid_exercises (some "")).length = 23 := by
  refine ⟨by decide, by decide⟩

/-- C7 amended: for every non-empty filter string, the result is exactly
the non-VITRUVIAN entries whose type equals the uppercased filter value, and
a value matching no entry yields the empty list (never an error — the
function is total); the empty string is instead treated as no filter. -/
theorem c7_nonempty_filter_exact :
    ∀ t : String, t ≠ "" →
      get_hybrid_exercises (some t)
          = HYBRID_EXERCISE_LIBRARY.filter
              (fun e => decide (e.exercise_type ≠ ExerciseType.VITRUVIAN)
                && decide (e.exercise_type = py_upper t))
      ∧ (HYBRID_EXERCISE_LIBRARY.filter
            (fun e => decide (e.exercise_type = py_upper t)) = [] →
          get_hybrid_exercises (some t) = []) := by
  intro t ht
  have h1 : get_hybrid_exercises (some t)
      = HYBRID_EXERCISE_LIBRARY.filter
          (fun e => decide (e.exercise_type ≠ ExerciseType.VITRUVIAN)
            && decide (e.exercise_type = py_upper t)) := by
    rw [hybrid_some_eq, if_neg ht, filter_filter_eq]
  refine ⟨h1, fun hnil => ?_⟩
  rw [h1]
  exact filter_nil_of_nil _ _ _ hnil

/-- C7 witness: the amended statement at the lowercase filter `"trx"`. -/
theorem c7_trx_witness :
    get_hybrid_exercises (some "trx")
        = HYBRID_EXERCISE_LIBRARY.filter
            (fun e => decide (e.exercise_type ≠ ExerciseType.VITRUVIAN)
              && decide (e.exercise_type = py_upper "trx"))
    ∧ (HYBRID_EXERCISE_LIBRARY.filter
          (fun e => decide (e.exercise_type = py_upper "trx")) = [] →
        get_hybrid_exercises (some "trx") = []) :=
  c7_nonempty_filter_exact "trx" (by decide)

/-- C8 counterexample: two calls with distinct uuid tokens (as two distinct
`uuid4` draws) whose first eight hex characters coincide produce the same
`plan_id` — the source keeps only `uuid4().hex[:8]`, so distinctness of the
ids is not guaranteed for every pair of calls. -/
theorem c8_prefix_collision :
    (generate_workout_plan "alice" none "00112233deadbeef" 100).plan_id
      = (generate_workout_plan "bob" none "00112233cafebabe" 200).plan_id := by
  decide

/-- C8 amended: `plan_id` is `"plan_"` followed by the first eight hex
characters of the per-call uuid token, `generated_at` is the call time, and
two calls receive distinct `plan_id`s exactly when those eight-character
prefixes differ — uniqueness rests on the random token, not on the code. -/
theorem c8_plan_id_from_token :
    ∀ (uid uid' : String) (hist hist' : Option (List CompletionSummary))
      (tok tok' : String) (now now' : Int),
      (generate_workout_plan uid hist tok now).plan_id = "plan_" ++ tok.take 8
      ∧ (generate_workout_plan uid hist tok now).generated_at = now
      ∧ (tok.take 8 ≠ tok'.take 8 →
          (generate_workout_plan uid hist tok now).plan_id
            ≠ (generate_workout_plan uid' hist' tok' now').plan_id) := by
  intro uid uid' hist hist' tok tok' now now'
  refine ⟨rfl, rfl, fun hne heq => hne ?_⟩
  have heq' : "plan_" ++ tok.take 8 = "plan_" ++ tok'.take 8 := heq
  have h2 := congrArg String.data heq'
  rw [String.data_append, String.data_append] at h2
  exact String.ext (List.append_cancel_left h2)

/-- C8 witness: two calls whose token prefixes differ get distinct ids. -/
theorem c8_distinct_witness :
    (generate_workout_plan "alice" none "0123456789abcdef" 0).plan_id
      ≠ (generate_workout_plan "bob" none "fedcba9876543210" 5).plan_id :=
  (c8_plan_id_from_token "alice" "bob" none none
    "0123456789abcdef" "fedcba9876543210" 0 5).2.2 (by decide)

/-- C9 counterexample: a present but empty `X-User-Id` header is falsy in
Python, so identity extraction fails with 401 even though the header is
there — refuting "with the header present, identity extraction never
fails". -/
theorem c9_empty_header_rejected :
    get_user_id (some "")
        = Except.error { status_code := 401, detail := "X-User-Id header required" }
    ∧ get_todays_workout (some "") "0123456789abcdef" 0
        = Except.error { status_code := 401, detail := "X-User-Id header required" } := by
  refine ⟨rfl, rfl⟩

/-- C9 amended: without the identity header `GET /workout/today` is a 401
error and no plan is produced; with a non-empty header value extraction
never fails and the plan is returned — an empty header value is likewise
rejected with 401. -/
theorem c9_identity_gate :
    (∀ (tok : String) (now : Int),
        get_todays_workout none tok now
          = Except.error { status_code := 401, detail := "X-User-Id header required" })
    ∧ (∀ s : String, s ≠ "" →
        get_user_id (some s) = Except.ok s
        ∧ ∀ (tok : String) (now : Int),
            get_todays_workout (some s) tok now
              = Except.ok (generate_workout_plan s none tok now)) := by
  constructor
  · intro tok now
    rfl
  · intro s hs
    have hu : get_user_id (some s) = Except.ok s := by
      simp [get_user_id, hs]
    refine ⟨hu, fun tok now => ?_⟩
    simp [get_todays_workout, hu]

/-- C9 witness: the amended statement at the header value `"alice"`. -/
theorem c9_alice_witness :
    get_user_id (some "alice") = Except.ok "alice"
    ∧ get_todays_workout (some "alice") "0123456789abcdef" 0
        = Except.ok (generate_workout_plan "alice" none "0123456789abcdef" 0) :=
  ⟨(c9_identity_gate.2 "alice" (by decide)).1,
   (c9_identity_gate.2 "alice" (by decide)).2 "0123456789abcdef" 0⟩

/-- C10: the seed catalog holds no `VITRUVIAN` entry, so the hybrid query
with no filter returns the whole catalog — `GET /exercises/hybrid` and
`GET /exercises` answer the same list in the same order. -/
theorem c10_hybrid_equals_full_catalog :
    (HYBRID_EXERCISE_LIBRARY.all
        (fun e => e.exercise_type != ExerciseType.VITRUVIAN)) = true
    ∧ get_hybrid_exercises none = get_exercise_library := by
  refine ⟨by decide, by decide⟩

end Phoenix
